import Mathlib

/-! Shallow embedding of the MindMap test-planning model of the
`workflow-client` repository (`workflow_client/models/mindmap/`):
the enumerations, the static template catalog (`templates.py`), the
component data classes (`components.py`), the aggregate `MindMapModel`
(`mindmap.py`), a JSON serialization model for the pydantic round trip,
and a small store model capturing the dict-copy semantics of
`get_mode_fixed_tests`.  Machine integers of the source are Python
arbitrary-precision `int`, embedded as `Int`; test-item counts coming
from list lengths are cast from `Nat`. -/

namespace WorkflowClient

/-! ## Enumerations (`enums.py`) -/

/-- `ScreenType` of `enums.py`: screen type classification for MindMap. -/
inductive ScreenType
  | CRUD_MASTER
  | LIST_ONLY
  | FORM_ONLY
  | WIZARD
  | DASHBOARD
  | SETTINGS
deriving DecidableEq, Repr

/-- The `str` value of a `ScreenType` member. -/
def ScreenType.value : ScreenType → String
  | .CRUD_MASTER => "CRUD_MASTER"
  | .LIST_ONLY => "LIST_ONLY"
  | .FORM_ONLY => "FORM_ONLY"
  | .WIZARD => "WIZARD"
  | .DASHBOARD => "DASHBOARD"
  | .SETTINGS => "SETTINGS"

/-- The `ScreenType(v)` enum constructor. -/
def ScreenType.fromValue : String → Option ScreenType
  | "CRUD_MASTER" => some .CRUD_MASTER
  | "LIST_ONLY" => some .LIST_ONLY
  | "FORM_ONLY" => some .FORM_ONLY
  | "WIZARD" => some .WIZARD
  | "DASHBOARD" => some .DASHBOARD
  | "SETTINGS" => some .SETTINGS
  | _ => none

/-- `ScreenMode` of `enums.py`: screen modes that organize test plans. -/
inductive ScreenMode
  | LIST
  | ADD
  | EDIT
  | VIEW
deriving DecidableEq, Repr

/-- The `str` value of a `ScreenMode` member. -/
def ScreenMode.value : ScreenMode → String
  | .LIST => "LIST"
  | .ADD => "ADD"
  | .EDIT => "EDIT"
  | .VIEW => "VIEW"

/-- The `ScreenMode(v)` enum constructor: `some` on a valid value string,
`none` where Python raises `ValueError`. -/
def ScreenMode.fromValue : String → Option ScreenMode
  | "LIST" => some .LIST
  | "ADD" => some .ADD
  | "EDIT" => some .EDIT
  | "VIEW" => some .VIEW
  | _ => none

/-- `WidgetType` of `enums.py`: widget types with associated test templates.
The source member `RADIO` is spelled `RADIO_BTN` here (its value string
stays `"RADIO"`). -/
inductive WidgetType
  | EMAIL
  | TEXT_INPUT
  | PASSWORD
  | NUMBER
  | TEXTAREA
  | DROPDOWN
  | CHECKBOX
  | RADIO_BTN
  | DATE
  | DATETIME
  | FILE_UPLOAD
  | TABLE
  | SEARCH_BOX
  | BUTTON
  | LINK
  | LABEL
deriving DecidableEq, Repr

/-- The `str` value of a `WidgetType` member. -/
def WidgetType.value : WidgetType → String
  | .EMAIL => "EMAIL"
  | .TEXT_INPUT => "TEXT_INPUT"
  | .PASSWORD => "PASSWORD"
  | .NUMBER => "NUMBER"
  | .TEXTAREA => "TEXTAREA"
  | .DROPDOWN => "DROPDOWN"
  | .CHECKBOX => "CHECKBOX"
  | .RADIO_BTN => "RADIO"
  | .DATE => "DATE"
  | .DATETIME => "DATETIME"
  | .FILE_UPLOAD => "FILE_UPLOAD"
  | .TABLE => "TABLE"
  | .SEARCH_BOX => "SEARCH_BOX"
  | .BUTTON => "BUTTON"
  | .LINK => "LINK"
  | .LABEL => "LABEL"

/-- The `WidgetType(v)` enum constructor. -/
def WidgetType.fromValue : String → Option WidgetType
  | "EMAIL" => some .EMAIL
  | "TEXT_INPUT" => some .TEXT_INPUT
  | "PASSWORD" => some .PASSWORD
  | "NUMBER" => some .NUMBER
  | "TEXTAREA" => some .TEXTAREA
  | "DROPDOWN" => some .DROPDOWN
  | "CHECKBOX" => some .CHECKBOX
  | "RADIO" => some .RADIO_BTN
  | "DATE" => some .DATE
  | "DATETIME" => some .DATETIME
  | "FILE_UPLOAD" => some .FILE_UPLOAD
  | "TABLE" => some .TABLE
  | "SEARCH_BOX" => some .SEARCH_BOX
  | "BUTTON" => some .BUTTON
  | "LINK" => some .LINK
  | "LABEL" => some .LABEL
  | _ => none

/-- `ButtonType` of `enums.py`. -/
inductive ButtonType
  | SAVE
  | CLOSE
  | CANCEL
  | SEARCH
  | RESET
  | DELETE
  | EXPORT
  | ADD
  | EDIT
  | GENERIC
deriving DecidableEq, Repr

/-- The `str` value of a `ButtonType` member. -/
def ButtonType.value : ButtonType → String
  | .SAVE => "SAVE"
  | .CLOSE => "CLOSE"
  | .CANCEL => "CANCEL"
  | .SEARCH => "SEARCH"
  | .RESET => "RESET"
  | .DELETE => "DELETE"
  | .EXPORT => "EXPORT"
  | .ADD => "ADD"
  | .EDIT => "EDIT"
  | .GENERIC => "GENERIC"

/-- The `ButtonType(v)` enum constructor. -/
def ButtonType.fromValue : String → Option ButtonType
  | "SAVE" => some .SAVE
  | "CLOSE" => some .CLOSE
  | "CANCEL" => some .CANCEL
  | "SEARCH" => some .SEARCH
  | "RESET" => some .RESET
  | "DELETE" => some .DELETE
  | "EXPORT" => some .EXPORT
  | "ADD" => some .ADD
  | "EDIT" => some .EDIT
  | "GENERIC" => some .GENERIC
  | _ => none

/-- `ViewpointCategory` of `enums.py`. -/
inductive ViewpointCategory
  | REQUIRED
  | BOUNDARY
  | FORMAT
  | CHARACTER_TYPE
  | SPACE_HANDLING
  | SPECIAL_CHARS
  | DROPDOWN
  | CHECKBOX_STATE
  | SEARCH
  | PAGINATION
  | TABLE_SORT
  | EXPORT
  | RESET
  | BUTTON_BEHAVIOR
  | ROLE_ACCESS
  | GUI_LAYOUT
  | CONCURRENT
  | DB_ERROR
  | DOUBLE_CLICK
  | SCREEN_TRANSITION
deriving DecidableEq, Repr

/-- The `str` value of a `ViewpointCategory` member. -/
def ViewpointCategory.value : ViewpointCategory → String
  | .REQUIRED => "REQUIRED"
  | .BOUNDARY => "BOUNDARY"
  | .FORMAT => "FORMAT"
  | .CHARACTER_TYPE => "CHARACTER_TYPE"
  | .SPACE_HANDLING => "SPACE_HANDLING"
  | .SPECIAL_CHARS => "SPECIAL_CHARS"
  | .DROPDOWN => "DROPDOWN"
  | .CHECKBOX_STATE => "CHECKBOX_STATE"
  | .SEARCH => "SEARCH"
  | .PAGINATION => "PAGINATION"
  | .TABLE_SORT => "TABLE_SORT"
  | .EXPORT => "EXPORT"
  | .RESET => "RESET"
  | .BUTTON_BEHAVIOR => "BUTTON_BEHAVIOR"
  | .ROLE_ACCESS => "ROLE_ACCESS"
  | .GUI_LAYOUT => "GUI_LAYOUT"
  | .CONCURRENT => "CONCURRENT"
  | .DB_ERROR => "DB_ERROR"
  | .DOUBLE_CLICK => "DOUBLE_CLICK"
  | .SCREEN_TRANSITION => "SCREEN_TRANSITION"

/-- The `ViewpointCategory(v)` enum constructor. -/
def ViewpointCategory.fromValue : String → Option ViewpointCategory
  | "REQUIRED" => some .REQUIRED
  | "BOUNDARY" => some .BOUNDARY
  | "FORMAT" => some .FORMAT
  | "CHARACTER_TYPE" => some .CHARACTER_TYPE
  | "SPACE_HANDLING" => some .SPACE_HANDLING
  | "SPECIAL_CHARS" => some .SPECIAL_CHARS
  | "DROPDOWN" => some .DROPDOWN
  | "CHECKBOX_STATE" => some .CHECKBOX_STATE
  | "SEARCH" => some .SEARCH
  | "PAGINATION" => some .PAGINATION
  | "TABLE_SORT" => some .TABLE_SORT
  | "EXPORT" => some .EXPORT
  | "RESET" => some .RESET
  | "BUTTON_BEHAVIOR" => some .BUTTON_BEHAVIOR
  | "ROLE_ACCESS" => some .ROLE_ACCESS
  | "GUI_LAYOUT" => some .GUI_LAYOUT
  | "CONCURRENT" => some .CONCURRENT
  | "DB_ERROR" => some .DB_ERROR
  | "DOUBLE_CLICK" => some .DOUBLE_CLICK
  | "SCREEN_TRANSITION" => some .SCREEN_TRANSITION
  | _ => none

/-- `WidgetState` of `enums.py`. -/
inductive WidgetState
  | EDITABLE
  | READONLY
  | HIDDEN
  | DISABLED
  | SEARCH
deriving DecidableEq, Repr

/-- The `str` value of a `WidgetState` member. -/
def WidgetState.value : WidgetState → String
  | .EDITABLE => "editable"
  | .READONLY => "readonly"
  | .HIDDEN => "hidden"
  | .DISABLED => "disabled"
  | .SEARCH => "search"

/-- The `WidgetState(v)` enum constructor. -/
def WidgetState.fromValue : String → Option WidgetState
  | "editable" => some .EDITABLE
  | "readonly" => some .READONLY
  | "hidden" => some .HIDDEN
  | "disabled" => some .DISABLED
  | "search" => some .SEARCH
  | _ => none

/-! ## Dict and list helpers

Python dicts whose keys are strings are embedded as association lists in
insertion order; `d.get(k, default)` is `(alookup d k).getD default`. -/

/-- Association-list lookup: the embedding of `dict.get` /  `dict[k]`
(first entry wins; the embedded dict literals have distinct keys). -/
def alookup {α : Type} : List (String × α) → String → Option α
  | [], _ => none
  | (k, v) :: rest, key => if key = k then some v else alookup rest key

/-- Effectful map over a list in the `Option` monad (used to embed list
comprehensions whose body may raise, e.g. `[ScreenMode(v) for v in vs]`,
and element-wise JSON decoding). -/
def omapM {α β : Type} (f : α → Option β) : List α → Option (List β)
  | [] => some []
  | x :: xs =>
    match f x with
    | none => none
    | some y => (omapM f xs).map (fun ys => y :: ys)

/-! ## Template catalog (`templates.py`) -/

/-- `WIDGET_TEST_COUNTS`: tests per widget type per trigger button. -/
def WIDGET_TEST_COUNTS : List (String × Int) :=
  [(WidgetType.EMAIL.value, 20),
   (WidgetType.TEXT_INPUT.value, 12),
   (WidgetType.PASSWORD.value, 12),
   (WidgetType.NUMBER.value, 10),
   (WidgetType.TEXTAREA.value, 12),
   (WidgetType.DROPDOWN.value, 4),
   (WidgetType.CHECKBOX.value, 3),
   (WidgetType.RADIO_BTN.value, 3),
   (WidgetType.DATE.value, 8),
   (WidgetType.DATETIME.value, 10),
   (WidgetType.FILE_UPLOAD.value, 6),
   (WidgetType.SEARCH_BOX.value, 16),
   (WidgetType.TABLE.value, 10),
   (WidgetType.BUTTON.value, 2),
   (WidgetType.LINK.value, 2),
   (WidgetType.LABEL.value, 1)]

/-- `WIDGET_APPLICABLE_MODES`: which modes each widget type applies to. -/
def WIDGET_APPLICABLE_MODES : List (String × List String) :=
  [(WidgetType.EMAIL.value, [ScreenMode.ADD.value]),
   (WidgetType.TEXT_INPUT.value, [ScreenMode.ADD.value, ScreenMode.EDIT.value]),
   (WidgetType.PASSWORD.value, [ScreenMode.ADD.value]),
   (WidgetType.NUMBER.value, [ScreenMode.ADD.value, ScreenMode.EDIT.value]),
   (WidgetType.TEXTAREA.value, [ScreenMode.ADD.value, ScreenMode.EDIT.value]),
   (WidgetType.DROPDOWN.value,
     [ScreenMode.LIST.value, ScreenMode.ADD.value, ScreenMode.EDIT.value]),
   (WidgetType.CHECKBOX.value, [ScreenMode.ADD.value, ScreenMode.EDIT.value]),
   (WidgetType.RADIO_BTN.value, [ScreenMode.ADD.value, ScreenMode.EDIT.value]),
   (WidgetType.DATE.value, [ScreenMode.ADD.value, ScreenMode.EDIT.value]),
   (WidgetType.DATETIME.value, [ScreenMode.ADD.value, ScreenMode.EDIT.value]),
   (WidgetType.FILE_UPLOAD.value, [ScreenMode.ADD.value, ScreenMode.EDIT.value]),
   (WidgetType.SEARCH_BOX.value, [ScreenMode.LIST.value]),
   (WidgetType.TABLE.value, [ScreenMode.LIST.value]),
   (WidgetType.BUTTON.value,
     [ScreenMode.LIST.value, ScreenMode.ADD.value, ScreenMode.EDIT.value]),
   (WidgetType.LINK.value,
     [ScreenMode.LIST.value, ScreenMode.ADD.value, ScreenMode.EDIT.value]),
   (WidgetType.LABEL.value,
     [ScreenMode.LIST.value, ScreenMode.ADD.value, ScreenMode.EDIT.value,
      ScreenMode.VIEW.value])]

/-- `LIST_MODE_FIXED_TESTS`: fixed tests for LIST mode. -/
def LIST_MODE_FIXED_TESTS : List (String × Int) :=
  [("role_access_tests", 4),
   ("search_tests", 15),
   ("pagination_tests", 14),
   ("sort_tests", 10),
   ("reset_tests", 6),
   ("export_tests", 11),
   ("screen_transition_tests", 1),
   ("gui_tests", 2)]

/-- `LIST_MODE_TOTAL_FIXED = sum(LIST_MODE_FIXED_TESTS.values())`. -/
def LIST_MODE_TOTAL_FIXED : Int := (LIST_MODE_FIXED_TESTS.map (fun p => p.2)).sum

/-- `ADD_MODE_FIXED_TESTS`: fixed tests for ADD mode. -/
def ADD_MODE_FIXED_TESTS : List (String × Int) :=
  [("concurrent_tests", 1),
   ("db_error_tests", 1),
   ("double_click_tests", 2),
   ("gui_tests", 1)]

/-- `ADD_MODE_TOTAL_FIXED = sum(ADD_MODE_FIXED_TESTS.values())`. -/
def ADD_MODE_TOTAL_FIXED : Int := (ADD_MODE_FIXED_TESTS.map (fun p => p.2)).sum

/-- `EDIT_MODE_FIXED_TESTS`: fixed tests for EDIT mode. -/
def EDIT_MODE_FIXED_TESTS : List (String × Int) :=
  [("concurrent_tests", 1),
   ("db_error_tests", 1),
   ("double_click_tests", 1),
   ("gui_tests", 1)]

/-- `EDIT_MODE_TOTAL_FIXED = sum(EDIT_MODE_FIXED_TESTS.values())`. -/
def EDIT_MODE_TOTAL_FIXED : Int := (EDIT_MODE_FIXED_TESTS.map (fun p => p.2)).sum

/-- `VIEW_MODE_FIXED_TESTS`: fixed tests for VIEW mode. -/
def VIEW_MODE_FIXED_TESTS : List (String × Int) :=
  [("gui_tests", 1)]

/-- `VIEW_MODE_TOTAL_FIXED = sum(VIEW_MODE_FIXED_TESTS.values())`. -/
def VIEW_MODE_TOTAL_FIXED : Int := (VIEW_MODE_FIXED_TESTS.map (fun p => p.2)).sum

/-- `MODE_VALIDATION_TRIGGERS`: which buttons trigger validation per mode. -/
def MODE_VALIDATION_TRIGGERS : List (String × List String) :=
  [(ScreenMode.LIST.value, []),
   (ScreenMode.ADD.value, ["Search", "Save"]),
   (ScreenMode.EDIT.value, []),
   (ScreenMode.VIEW.value, [])]

/-- `DT_COMBINATIONS`: DT combinations by mode and role context. -/
def DT_COMBINATIONS : List (String × List (String × Int)) :=
  [("ADD",
    [("System_Admin", 6),
     ("Backoffice", 4),
     ("Operator", 2)]),
   ("EDIT",
    [("System_Admin", 10),
     ("Backoffice", 8),
     ("Operator", 1)])]

/-- `DT_ROW_MULTIPLIER`: each DT combination = 2 test rows. -/
def DT_ROW_MULTIPLIER : Int := 2

/-- `get_widget_test_count`: expected test count for a widget type
(`WIDGET_TEST_COUNTS.get(key, 0)`).  The `Union[WidgetType, str]`
argument is embedded as the key string (for a `WidgetType` member the
source passes its `.value`). -/
def get_widget_test_count (widget_type : String) : Int :=
  (alookup WIDGET_TEST_COUNTS widget_type).getD 0

/-- `get_applicable_modes`: applicable modes for a widget type.
`[ScreenMode(v) for v in mode_values]` raises on an invalid value
string, hence the `Option` result (`none` = raise). -/
def get_applicable_modes (widget_type : String) : Option (List ScreenMode) :=
  omapM ScreenMode.fromValue ((alookup WIDGET_APPLICABLE_MODES widget_type).getD [])

/-- `get_mode_fixed_tests`: fixed test counts for a mode.  The source
returns a `.copy()` of the module-level table; the value returned is the
table's contents, and the copy (aliasing) semantics is modelled by the
store model below. -/
def get_mode_fixed_tests (mode : String) : List (String × Int) :=
  if mode = ScreenMode.LIST.value then LIST_MODE_FIXED_TESTS
  else if mode = ScreenMode.ADD.value then ADD_MODE_FIXED_TESTS
  else if mode = ScreenMode.EDIT.value then EDIT_MODE_FIXED_TESTS
  else if mode = ScreenMode.VIEW.value then VIEW_MODE_FIXED_TESTS
  else []

/-- `get_dt_test_count`: decision table test count for a mode and role
context (`combinations * DT_ROW_MULTIPLIER` with zero/empty defaults). -/
def get_dt_test_count (mode : String) (role_context : String) : Int :=
  let mode_dts := (alookup DT_COMBINATIONS mode).getD []
  let combinations := (alookup mode_dts role_context).getD 0
  combinations * DT_ROW_MULTIPLIER

/-- `calculate_trigger_tests`: total tests for a widget based on trigger
buttons — validation tests are duplicated for each applicable trigger. -/
def calculate_trigger_tests (widget_type : String) (trigger_buttons : List String)
    (mode : String) : Int :=
  let base_tests := get_widget_test_count widget_type
  let mode_triggers := (alookup MODE_VALIDATION_TRIGGERS mode).getD []
  let applicable_triggers := mode_triggers.filter (fun t => trigger_buttons.contains t)
  if applicable_triggers.isEmpty then 0
  else base_tests * (applicable_triggers.length : Int)

/-! ## Component data classes (`components.py`)

Pydantic models become structures.  Python `int` fields are `Int`,
`Optional[T]` is `Option T`, `Dict[str, T]` is an association list, and
the two `Optional[float]` constraint fields are embedded as `Option Rat`
(the exact numeric value carried by the field; no arithmetic is ever
performed on them). -/

/-- `TestItem`: a single test item within a viewpoint. -/
structure TestItem where
  id : String
  item : String
  procedure : String := ""
  expected : String := ""
  test_data : String := ""
  priority : String := "Medium"
deriving DecidableEq, Repr

/-- `ViewpointPlan`: a viewpoint containing multiple test items. -/
structure ViewpointPlan where
  viewpoint_id : String
  name : String
  category : ViewpointCategory
  test_items : List TestItem := []
  applicable_modes : List ScreenMode := []
deriving DecidableEq, Repr

/-- `ViewpointPlan.test_count`: the number of test items. -/
def ViewpointPlan.test_count (vp : ViewpointPlan) : Int :=
  (vp.test_items.length : Int)

/-- `WidgetConstraints`: constraints extracted from the design document. -/
structure WidgetConstraints where
  max_length : Option Int := none
  min_length : Option Int := none
  required : Bool := false
  pattern : Option String := none
  min_value : Option Rat := none
  max_value : Option Rat := none
  allowed_values : List String := []
  default_value : Option String := none
  placeholder : Option String := none
deriving DecidableEq, Repr

/-- `WidgetTestPlan`: test plan for a widget, derived from templates. -/
structure WidgetTestPlan where
  widget_id : String
  widget_type : WidgetType
  widget_name : String
  label : String
  constraints : WidgetConstraints := {}
  viewpoints : List ViewpointPlan := []
  trigger_buttons : List String := []
  mode_states : List (String × WidgetState) := []
deriving DecidableEq, Repr

/-- `WidgetTestPlan.total_tests`: total tests from all viewpoints. -/
def WidgetTestPlan.total_tests (w : WidgetTestPlan) : Int :=
  (w.viewpoints.map (fun vp => vp.test_count)).sum

/-- `ButtonTestPlan`: test plan for a button. -/
structure ButtonTestPlan where
  button_id : String
  button_type : ButtonType
  button_name : String
  label : String
  viewpoints : List ViewpointPlan := []
deriving DecidableEq, Repr

/-- `ButtonTestPlan.total_tests`: total tests from all viewpoints. -/
def ButtonTestPlan.total_tests (b : ButtonTestPlan) : Int :=
  (b.viewpoints.map (fun vp => vp.test_count)).sum

/-- `DTReference`: reference to a decision table with test count. -/
structure DTReference where
  dt_id : String
  name : String
  role_context : String
  combinations : Int
  row_multiplier : Int := 2
  roles : List String := []
deriving DecidableEq, Repr

/-- `DTReference.total_tests = combinations * row_multiplier`. -/
def DTReference.total_tests (dt : DTReference) : Int :=
  dt.combinations * dt.row_multiplier

/-- Errors a construction could raise.  The pydantic classes of
`components.py` declare no validators, so the only constructor outcome
is success; the spec's `InvalidPlanValueError` appears nowhere in the
source, which the construction functions below make visible. -/
inductive PlanConstructionError
  | invalidPlanValue (msg : String)
deriving DecidableEq, Repr

/-- Construction of a `DTReference` as the source performs it: the class
body contains field declarations only (no validator hooks), so every
type-correct argument tuple constructs successfully. -/
def DTReference.construct (dt_id name role_context : String)
    (combinations row_multiplier : Int) (roles : List String) :
    Except PlanConstructionError DTReference :=
  .ok ⟨dt_id, name, role_context, combinations, row_multiplier, roles⟩

/-- `FixedTests`: fixed tests for a mode (not from widget templates). -/
structure FixedTests where
  role_access_tests : Int := 0
  search_tests : Int := 0
  pagination_tests : Int := 0
  sort_tests : Int := 0
  reset_tests : Int := 0
  export_tests : Int := 0
  screen_transition_tests : Int := 0
  concurrent_tests : Int := 0
  db_error_tests : Int := 0
  double_click_tests : Int := 0
  gui_tests : Int := 0
deriving DecidableEq, Repr

/-- `FixedTests.total`: total fixed tests. -/
def FixedTests.total (f : FixedTests) : Int :=
  f.role_access_tests +
  f.search_tests +
  f.pagination_tests +
  f.sort_tests +
  f.reset_tests +
  f.export_tests +
  f.screen_transition_tests +
  f.concurrent_tests +
  f.db_error_tests +
  f.double_click_tests +
  f.gui_tests

/-- Construction of `FixedTests`: like `DTReference`, the class declares
no validators, so construction always succeeds. -/
def FixedTests.construct (role_access_tests search_tests pagination_tests
    sort_tests reset_tests export_tests screen_transition_tests
    concurrent_tests db_error_tests double_click_tests gui_tests : Int) :
    Except PlanConstructionError FixedTests :=
  .ok ⟨role_access_tests, search_tests, pagination_tests, sort_tests,
       reset_tests, export_tests, screen_transition_tests, concurrent_tests,
       db_error_tests, double_click_tests, gui_tests⟩

/-- `FixedTests(**table)`: keyword construction from a fixed-tests table
of `templates.py` (each declared field taken from the table when
present, its default `0` otherwise). -/
def FixedTests.fromTable (t : List (String × Int)) : FixedTests where
  role_access_tests := (alookup t "role_access_tests").getD 0
  search_tests := (alookup t "search_tests").getD 0
  pagination_tests := (alookup t "pagination_tests").getD 0
  sort_tests := (alookup t "sort_tests").getD 0
  reset_tests := (alookup t "reset_tests").getD 0
  export_tests := (alookup t "export_tests").getD 0
  screen_transition_tests := (alookup t "screen_transition_tests").getD 0
  concurrent_tests := (alookup t "concurrent_tests").getD 0
  db_error_tests := (alookup t "db_error_tests").getD 0
  double_click_tests := (alookup t "double_click_tests").getD 0
  gui_tests := (alookup t "gui_tests").getD 0

/-- `ModeTestPlan`: test plan for a screen mode. -/
structure ModeTestPlan where
  mode : ScreenMode
  url_path : String := ""
  navigation_steps : String := ""
  widgets : List WidgetTestPlan := []
  buttons : List ButtonTestPlan := []
  decision_tables : List DTReference := []
  fixed_tests : FixedTests := {}
  validation_triggers : List String := []
deriving DecidableEq, Repr

/-- `ModeTestPlan.widget_tests`: total tests from widgets. -/
def ModeTestPlan.widget_tests (m : ModeTestPlan) : Int :=
  (m.widgets.map (fun w => w.total_tests)).sum

/-- `ModeTestPlan.button_tests`: total tests from buttons. -/
def ModeTestPlan.button_tests (m : ModeTestPlan) : Int :=
  (m.buttons.map (fun b => b.total_tests)).sum

/-- `ModeTestPlan.dt_tests`: total tests from decision tables. -/
def ModeTestPlan.dt_tests (m : ModeTestPlan) : Int :=
  (m.decision_tables.map (fun dt => dt.total_tests)).sum

/-- `ModeTestPlan.total_tests`: total tests for this mode. -/
def ModeTestPlan.total_tests (m : ModeTestPlan) : Int :=
  m.widget_tests + m.button_tests + m.dt_tests + m.fixed_tests.total

/-! ## The aggregate (`mindmap.py`) -/

/-- `MindMapModel`: deterministic test plan for the PEV architecture. -/
structure MindMapModel where
  version : String := "2.3"
  plan_id : String
  created_at : Option String := none
  generation_method : String := "MIND_MAP_TEMPLATE"
  source_document : Option String := none
  source_document_version : Option String := none
  screen_id : String
  screen_name : String
  screen_name_en : Option String := none
  screen_type : ScreenType
  modes : List ModeTestPlan := []
  validation_status : Option String := none
  validation_errors : List String := []
  validation_warnings : List String := []
deriving DecidableEq, Repr

/-- `MindMapModel.total_widgets`. -/
def MindMapModel.total_widgets (m : MindMapModel) : Nat :=
  (m.modes.map (fun mode => mode.widgets.length)).sum

/-- `MindMapModel.total_buttons`. -/
def MindMapModel.total_buttons (m : MindMapModel) : Nat :=
  (m.modes.map (fun mode => mode.buttons.length)).sum

/-- `MindMapModel.total_expected_tests`: sum of the modes' totals. -/
def MindMapModel.total_expected_tests (m : MindMapModel) : Int :=
  (m.modes.map (fun mode => mode.total_tests)).sum

/-- `MindMapModel.get_all_widget_ids`: all widget IDs across all modes,
`list(set(ids))`.  The set removes duplicates and forgets order; the
embedding realizes one concrete order via `dedup`, and the claims proved
about it are order-independent (no-duplicates and membership). -/
def MindMapModel.get_all_widget_ids (m : MindMapModel) : List String :=
  ((m.modes.map (fun mode => mode.widgets.map (fun w => w.widget_id))).flatten).dedup

/-- The duplicate-scan loop of `_validate_mode` (and of the duplicate-mode
check of `validate`): walk the ids, emitting `msg ++ x` whenever `x` was
already seen, then adding `x` to the seen set. -/
def dupMsgs (msg : String) (seen : List String) : List String → List String
  | [] => []
  | x :: xs =>
    (if seen.contains x then [msg ++ x] else []) ++ dupMsgs msg (x :: seen) xs

/-- `MindMapModel._validate_mode`: validate a single mode's test plan
(duplicate widget ids, then duplicate button ids, each prefixed with the
mode name). -/
def MindMapModel.validate_mode (mode : ModeTestPlan) : List String :=
  let pre := "Mode " ++ mode.mode.value ++ ": "
  dupMsgs (pre ++ "Duplicate widget_id: ") [] (mode.widgets.map (fun w => w.widget_id))
  ++ dupMsgs (pre ++ "Duplicate button_id: ") [] (mode.buttons.map (fun b => b.button_id))

/-- The mode loop of `validate`: duplicate-mode detection interleaved with
per-mode validation, `seen` being the `mode_names` set. -/
def MindMapModel.modeLoop (seen : List String) : List ModeTestPlan → List String
  | [] => []
  | mode :: rest =>
    (if seen.contains mode.mode.value then ["Duplicate mode: " ++ mode.mode.value] else [])
    ++ MindMapModel.validate_mode mode
    ++ MindMapModel.modeLoop (mode.mode.value :: seen) rest

/-- `MindMapModel.validate`: validate the MindMap structure, returning the
list of validation error messages (empty if valid). -/
def MindMapModel.validate (m : MindMapModel) : List String :=
  (if m.plan_id = "" then ["plan_id is required"] else [])
  ++ (if m.screen_id = "" then ["screen_id is required"] else [])
  ++ (if m.screen_name = "" then ["screen_name is required"] else [])
  ++ (if m.modes.isEmpty then ["At least one mode is required"] else [])
  ++ MindMapModel.modeLoop [] m.modes

/-- `validate` with the object state threaded explicitly: the method body
only reads `self` (it never assigns to a field of `self`), so the
state-passing embedding returns the errors together with the unchanged
aggregate. -/
def MindMapModel.validateRun (m : MindMapModel) : List String × MindMapModel :=
  (m.validate, m)

/-- `MindMapModel.is_valid`: `len(self.validate()) == 0`. -/
def MindMapModel.is_valid (m : MindMapModel) : Bool :=
  m.validate.length == 0

/-! ## Store model for the dict-copy semantics of `get_mode_fixed_tests`

Python dicts are mutable heap objects.  To state what `.copy()` in
`get_mode_fixed_tests` buys, dicts live in an explicit store (a list of
tables, an address being an index); the four module-level tables occupy
addresses 0–3, and `.copy()` allocates a fresh cell holding the table's
contents.  Mutation of a dict is an update of the cell it names. -/

/-- A store of dict objects; address `a` names the `a`-th cell. -/
abbrev DictStore : Type := List (List (String × Int))

/-- The initial store: the four module-level fixed-test tables of
`templates.py`, at addresses 0 (LIST), 1 (ADD), 2 (EDIT), 3 (VIEW). -/
def initStore : DictStore :=
  [LIST_MODE_FIXED_TESTS, ADD_MODE_FIXED_TESTS,
   EDIT_MODE_FIXED_TESTS, VIEW_MODE_FIXED_TESTS]

/-- Read the contents of the dict at address `a`. -/
def DictStore.read (σ : DictStore) (a : Nat) : List (String × Int) :=
  (List.getD σ a [])

/-- Update one key of an association-list dict (`d[k] = v`): replace the
first entry with key `k`, or append when absent. -/
def setEntry (k : String) (v : Int) : List (String × Int) → List (String × Int)
  | [] => [(k, v)]
  | (k0, v0) :: rest =>
    if k0 = k then (k, v) :: rest else (k0, v0) :: setEntry k v rest

/-- Mutate the dict at address `a`: `store[a][k] = v`. -/
def DictStore.write (σ : DictStore) (a : Nat) (k : String) (v : Int) : DictStore :=
  List.set σ a (setEntry k v (σ.read a))

/-- `get_mode_fixed_tests` over the store: returns `TABLE.copy()`, i.e.
allocates a fresh cell holding the catalogued table's contents and
returns its (fresh) address.  An alias-returning implementation would
instead return the catalog cell's own address. -/
def get_mode_fixed_tests_st (mode : String) (σ : DictStore) : Nat × DictStore :=
  (List.length σ, σ ++ [get_mode_fixed_tests mode])

/-! ## JSON serialization model (pydantic `model_dump_json` / `model_validate_json`)

The serialized form of an aggregate is a JSON tree; the textual layer is
a deterministic rendering of the tree (pydantic emits the declared
fields in declaration order), so equality of trees is equality of the
serialized bytes.  Encoding follows the field declarations of the
pydantic classes, with `use_enum_values=True` (enum fields carry their
value strings).  Decoding looks fields up by name, applies the declared
default when a field is absent, and fails (`none`) where pydantic would
raise a validation error. -/

/-- JSON values.  Integer and floating literals are distinct tokens in
JSON, hence distinct constructors; the floating payload is the exact
numeric value, as `Rat`. -/
inductive Json where
  | null
  | bool (b : Bool)
  | int (n : Int)
  | float (x : Rat)
  | str (s : String)
  | arr (elems : List Json)
  | obj (fields : List (String × Json))

/-- Encode an `Optional[str]` field. -/
def encOptStr : Option String → Json
  | none => .null
  | some s => .str s

/-- Encode an `Optional[int]` field. -/
def encOptInt : Option Int → Json
  | none => .null
  | some n => .int n

/-- Encode an `Optional[float]` field. -/
def encOptRat : Option Rat → Json
  | none => .null
  | some x => .float x

/-- Decode a required `str` field. -/
def decStr : Option Json → Option String
  | some (.str s) => some s
  | _ => none

/-- Decode a `str` field with default `d`. -/
def decStrD (d : String) : Option Json → Option String
  | none => some d
  | some (.str s) => some s
  | _ => none

/-- Decode a required `int` field. -/
def decInt : Option Json → Option Int
  | some (.int n) => some n
  | _ => none

/-- Decode an `int` field with default `d`. -/
def decIntD (d : Int) : Option Json → Option Int
  | none => some d
  | some (.int n) => some n
  | _ => none

/-- Decode a `bool` field with default `d`. -/
def decBoolD (d : Bool) : Option Json → Option Bool
  | none => some d
  | some (.bool b) => some b
  | _ => none

/-- Decode an `Optional[str]` field (default `None`). -/
def decOptStr : Option Json → Option (Option String)
  | none => some none
  | some .null => some none
  | some (.str s) => some (some s)
  | _ => none

/-- Decode an `Optional[int]` field (default `None`). -/
def decOptInt : Option Json → Option (Option Int)
  | none => some none
  | some .null => some none
  | some (.int n) => some (some n)
  | _ => none

/-- Decode an `Optional[float]` field (default `None`). -/
def decOptRat : Option Json → Option (Option Rat)
  | none => some none
  | some .null => some none
  | some (.float x) => some (some x)
  | _ => none

/-- Decode a list-valued field with default `[]`, decoding each element
with `f`. -/
def decListD {α : Type} (f : Json → Option α) : Option Json → Option (List α)
  | none => some []
  | some (.arr l) => omapM f l
  | _ => none

/-- Decode one element of a `List[str]` field. -/
def decStrElem : Json → Option String
  | .str s => some s
  | _ => none

/-- Decode a `Dict[str, α]` field with default `{}`. -/
def decDictD {α : Type} (f : Json → Option α) : Option Json → Option (List (String × α))
  | none => some []
  | some (.obj fs) => omapM (fun kv => (f kv.2).map (fun v => (kv.1, v))) fs
  | _ => none

/-- Serialize a `TestItem` (fields in declaration order). -/
def TestItem.toJson (t : TestItem) : Json :=
  .obj [("id", .str t.id),
        ("item", .str t.item),
        ("procedure", .str t.procedure),
        ("expected", .str t.expected),
        ("test_data", .str t.test_data),
        ("priority", .str t.priority)]

/-- Deserialize a `TestItem`. -/
def TestItem.fromJson : Json → Option TestItem
  | .obj fs => do
    let id ← decStr (alookup fs "id")
    let item ← decStr (alookup fs "item")
    let procedure ← decStrD "" (alookup fs "procedure")
    let expected ← decStrD "" (alookup fs "expected")
    let test_data ← decStrD "" (alookup fs "test_data")
    let priority ← decStrD "Medium" (alookup fs "priority")
    some ⟨id, item, procedure, expected, test_data, priority⟩
  | _ => none

/-- Serialize a `ViewpointPlan`. -/
def ViewpointPlan.toJson (vp : ViewpointPlan) : Json :=
  .obj [("viewpoint_id", .str vp.viewpoint_id),
        ("name", .str vp.name),
        ("category", .str vp.category.value),
        ("test_items", .arr (vp.test_items.map TestItem.toJson)),
        ("applicable_modes", .arr (vp.applicable_modes.map (fun m => .str m.value)))]

/-- Deserialize a `ViewpointPlan`. -/
def ViewpointPlan.fromJson : Json → Option ViewpointPlan
  | .obj fs => do
    let viewpoint_id ← decStr (alookup fs "viewpoint_id")
    let name ← decStr (alookup fs "name")
    let category ← (decStr (alookup fs "category")).bind ViewpointCategory.fromValue
    let test_items ← decListD TestItem.fromJson (alookup fs "test_items")
    let applicable_modes ←
      decListD (fun j => (decStrElem j).bind ScreenMode.fromValue) (alookup fs "applicable_modes")
    some ⟨viewpoint_id, name, category, test_items, applicable_modes⟩
  | _ => none

/-- Serialize a `WidgetConstraints`. -/
def WidgetConstraints.toJson (c : WidgetConstraints) : Json :=
  .obj [("max_length", encOptInt c.max_length),
        ("min_length", encOptInt c.min_length),
        ("required", .bool c.required),
        ("pattern", encOptStr c.pattern),
        ("min_value", encOptRat c.min_value),
        ("max_value", encOptRat c.max_value),
        ("allowed_values", .arr (c.allowed_values.map (fun s => .str s))),
        ("default_value", encOptStr c.default_value),
        ("placeholder", encOptStr c.placeholder)]

/-- Deserialize a `WidgetConstraints`. -/
def WidgetConstraints.fromJson : Json → Option WidgetConstraints
  | .obj fs => do
    let max_length ← decOptInt (alookup fs "max_length")
    let min_length ← decOptInt (alookup fs "min_length")
    let required ← decBoolD false (alookup fs "required")
    let pattern ← decOptStr (alookup fs "pattern")
    let min_value ← decOptRat (alookup fs "min_value")
    let max_value ← decOptRat (alookup fs "max_value")
    let allowed_values ← decListD decStrElem (alookup fs "allowed_values")
    let default_value ← decOptStr (alookup fs "default_value")
    let placeholder ← decOptStr (alookup fs "placeholder")
    some ⟨max_length, min_length, required, pattern, min_value, max_value,
          allowed_values, default_value, placeholder⟩
  | _ => none

/-- Serialize a `WidgetTestPlan`. -/
def WidgetTestPlan.toJson (w : WidgetTestPlan) : Json :=
  .obj [("widget_id", .str w.widget_id),
        ("widget_type", .str w.widget_type.value),
        ("widget_name", .str w.widget_name),
        ("label", .str w.label),
        ("constraints", w.constraints.toJson),
        ("viewpoints", .arr (w.viewpoints.map ViewpointPlan.toJson)),
        ("trigger_buttons", .arr (w.trigger_buttons.map (fun s => .str s))),
        ("mode_states", .obj (w.mode_states.map (fun kv => (kv.1, .str kv.2.value))))]

/-- Deserialize a `WidgetTestPlan`. -/
def WidgetTestPlan.fromJson : Json → Option WidgetTestPlan
  | .obj fs => do
    let widget_id ← decStr (alookup fs "widget_id")
    let widget_type ← (decStr (alookup fs "widget_type")).bind WidgetType.fromValue
    let widget_name ← decStr (alookup fs "widget_name")
    let label ← decStr (alookup fs "label")
    let constraints ←
      match alookup fs "constraints" with
      | none => some {}
      | some j => WidgetConstraints.fromJson j
    let viewpoints ← decListD ViewpointPlan.fromJson (alookup fs "viewpoints")
    let trigger_buttons ← decListD decStrElem (alookup fs "trigger_buttons")
    let mode_states ←
      decDictD (fun j => (decStrElem j).bind WidgetState.fromValue) (alookup fs "mode_states")
    some ⟨widget_id, widget_type, widget_name, label, constraints,
          viewpoints, trigger_buttons, mode_states⟩
  | _ => none

/-- Serialize a `ButtonTestPlan`. -/
def ButtonTestPlan.toJson (b : ButtonTestPlan) : Json :=
  .obj [("button_id", .str b.button_id),
        ("button_type", .str b.button_type.value),
        ("button_name", .str b.button_name),
        ("label", .str b.label),
        ("viewpoints", .arr (b.viewpoints.map ViewpointPlan.toJson))]

/-- Deserialize a `ButtonTestPlan`. -/
def ButtonTestPlan.fromJson : Json → Option ButtonTestPlan
  | .obj fs => do
    let button_id ← decStr (alookup fs "button_id")
    let button_type ← (decStr (alookup fs "button_type")).bind ButtonType.fromValue
    let button_name ← decStr (alookup fs "button_name")
    let label ← decStr (alookup fs "label")
    let viewpoints ← decListD ViewpointPlan.fromJson (alookup fs "viewpoints")
    some ⟨button_id, button_type, button_name, label, viewpoints⟩
  | _ => none

/-- Serialize a `DTReference`. -/
def DTReference.toJson (dt : DTReference) : Json :=
  .obj [("dt_id", .str dt.dt_id),
        ("name", .str dt.name),
        ("role_context", .str dt.role_context),
        ("combinations", .int dt.combinations),
        ("row_multiplier", .int dt.row_multiplier),
        ("roles", .arr (dt.roles.map (fun s => .str s)))]

/-- Deserialize a `DTReference`. -/
def DTReference.fromJson : Json → Option DTReference
  | .obj fs => do
    let dt_id ← decStr (alookup fs "dt_id")
    let name ← decStr (alookup fs "name")
    let role_context ← decStr (alookup fs "role_context")
    let combinations ← decInt (alookup fs "combinations")
    let row_multiplier ← decIntD 2 (alookup fs "row_multiplier")
    let roles ← decListD decStrElem (alookup fs "roles")
    some ⟨dt_id, name, role_context, combinations, row_multiplier, roles⟩
  | _ => none

/-- Serialize a `FixedTests`. -/
def FixedTests.toJson (f : FixedTests) : Json :=
  .obj [("role_access_tests", .int f.role_access_tests),
        ("search_tests", .int f.search_tests),
        ("pagination_tests", .int f.pagination_tests),
        ("sort_tests", .int f.sort_tests),
        ("reset_tests", .int f.reset_tests),
        ("export_tests", .int f.export_tests),
        ("screen_transition_tests", .int f.screen_transition_tests),
        ("concurrent_tests", .int f.concurrent_tests),
        ("db_error_tests", .int f.db_error_tests),
        ("double_click_tests", .int f.double_click_tests),
        ("gui_tests", .int f.gui_tests)]

/-- Deserialize a `FixedTests`. -/
def FixedTests.fromJson : Json → Option FixedTests
  | .obj fs => do
    let role_access_tests ← decIntD 0 (alookup fs "role_access_tests")
    let search_tests ← decIntD 0 (alookup fs "search_tests")
    let pagination_tests ← decIntD 0 (alookup fs "pagination_tests")
    let sort_tests ← decIntD 0 (alookup fs "sort_tests")
    let reset_tests ← decIntD 0 (alookup fs "reset_tests")
    let export_tests ← decIntD 0 (alookup fs "export_tests")
    let screen_transition_tests ← decIntD 0 (alookup fs "screen_transition_tests")
    let concurrent_tests ← decIntD 0 (alookup fs "concurrent_tests")
    let db_error_tests ← decIntD 0 (alookup fs "db_error_tests")
    let double_click_tests ← decIntD 0 (alookup fs "double_click_tests")
    let gui_tests ← decIntD 0 (alookup fs "gui_tests")
    some ⟨role_access_tests, search_tests, pagination_tests, sort_tests,
          reset_tests, export_tests, screen_transition_tests, concurrent_tests,
          db_error_tests, double_click_tests, gui_tests⟩
  | _ => none

/-- Serialize a `ModeTestPlan`. -/
def ModeTestPlan.toJson (m : ModeTestPlan) : Json :=
  .obj [("mode", .str m.mode.value),
        ("url_path", .str m.url_path),
        ("navigation_steps", .str m.navigation_steps),
        ("widgets", .arr (m.widgets.map WidgetTestPlan.toJson)),
        ("buttons", .arr (m.buttons.map ButtonTestPlan.toJson)),
        ("decision_tables", .arr (m.decision_tables.map DTReference.toJson)),
        ("fixed_tests", m.fixed_tests.toJson),
        ("validation_triggers", .arr (m.validation_triggers.map (fun s => .str s)))]

/-- Deserialize a `ModeTestPlan`. -/
def ModeTestPlan.fromJson : Json → Option ModeTestPlan
  | .obj fs => do
    let mode ← (decStr (alookup fs "mode")).bind ScreenMode.fromValue
    let url_path ← decStrD "" (alookup fs "url_path")
    let navigation_steps ← decStrD "" (alookup fs "navigation_steps")
    let widgets ← decListD WidgetTestPlan.fromJson (alookup fs "widgets")
    let buttons ← decListD ButtonTestPlan.fromJson (alookup fs "buttons")
    let decision_tables ← decListD DTReference.fromJson (alookup fs "decision_tables")
    let fixed_tests ←
      match alookup fs "fixed_tests" with
      | none => some {}
      | some j => FixedTests.fromJson j
    let validation_triggers ← decListD decStrElem (alookup fs "validation_triggers")
    some ⟨mode, url_path, navigation_steps, widgets, buttons, decision_tables,
          fixed_tests, validation_triggers⟩
  | _ => none

/-- Serialize a `MindMapModel` (the whole aggregate). -/
def MindMapModel.toJson (m : MindMapModel) : Json :=
  .obj [("version", .str m.version),
        ("plan_id", .str m.plan_id),
        ("created_at", encOptStr m.created_at),
        ("generation_method", .str m.generation_method),
        ("source_document", encOptStr m.source_document),
        ("source_document_version", encOptStr m.source_document_version),
        ("screen_id", .str m.screen_id),
        ("screen_name", .str m.screen_name),
        ("screen_name_en", encOptStr m.screen_name_en),
        ("screen_type", .str m.screen_type.value),
        ("modes", .arr (m.modes.map ModeTestPlan.toJson)),
        ("validation_status", encOptStr m.validation_status),
        ("validation_errors", .arr (m.validation_errors.map (fun s => .str s))),
        ("validation_warnings", .arr (m.validation_warnings.map (fun s => .str s)))]

/-- Deserialize a `MindMapModel`. -/
def MindMapModel.fromJson : Json → Option MindMapModel
  | .obj fs => do
    let version ← decStrD "2.3" (alookup fs "version")
    let plan_id ← decStr (alookup fs "plan_id")
    let created_at ← decOptStr (alookup fs "created_at")
    let generation_method ← decStrD "MIND_MAP_TEMPLATE" (alookup fs "generation_method")
    let source_document ← decOptStr (alookup fs "source_document")
    let source_document_version ← decOptStr (alookup fs "source_document_version")
    let screen_id ← decStr (alookup fs "screen_id")
    let screen_name ← decStr (alookup fs "screen_name")
    let screen_name_en ← decOptStr (alookup fs "screen_name_en")
    let screen_type ← (decStr (alookup fs "screen_type")).bind ScreenType.fromValue
    let modes ← decListD ModeTestPlan.fromJson (alookup fs "modes")
    let validation_status ← decOptStr (alookup fs "validation_status")
    let validation_errors ← decListD decStrElem (alookup fs "validation_errors")
    let validation_warnings ← decListD decStrElem (alookup fs "validation_warnings")
    some ⟨version, plan_id, created_at, generation_method, source_document,
          source_document_version, screen_id, screen_name, screen_name_en,
          screen_type, modes, validation_status, validation_errors,
          validation_warnings⟩
  | _ => none

/-! ## Concrete instances used in scenarios, counterexamples and witnesses -/

/-- The decision table of the spec's scenario: 6 combinations with the
default row multiplier 2. -/
def exampleDT : DTReference :=
  { dt_id := "DT-1", name := "Role matrix", role_context := "System_Admin",
    combinations := 6 }

/-- The LIST mode of `create_mindmap_for_crud`: catalogued LIST fixed
tests, no widgets, buttons, or decision tables. -/
def listOnlyMode : ModeTestPlan :=
  { mode := .LIST,
    validation_triggers := (alookup MODE_VALIDATION_TRIGGERS ScreenMode.LIST.value).getD [],
    fixed_tests := FixedTests.fromTable LIST_MODE_FIXED_TESTS }

/-- An aggregate whose only mode is `listOnlyMode`. -/
def listOnlyPlan : MindMapModel :=
  { plan_id := "PLAN-001", screen_id := "SC-011", screen_name := "User List",
    screen_type := .LIST_ONLY, modes := [listOnlyMode] }

/-- An aggregate with an empty `plan_id` that satisfies every uniqueness
condition (one mode, no duplicate mode values, all ids unique). -/
def emptyPlanIdModel : MindMapModel :=
  { plan_id := "", screen_id := "SC-011", screen_name := "User List",
    screen_type := .CRUD_MASTER, modes := [{ mode := .LIST }] }

/-- A widget test plan with id WGT-1 (an EMAIL input). -/
def dupWidgetA : WidgetTestPlan :=
  { widget_id := "WGT-1", widget_type := .EMAIL,
    widget_name := "email_input", label := "Email" }

/-- A second widget test plan sharing the id WGT-1. -/
def dupWidgetB : WidgetTestPlan :=
  { widget_id := "WGT-1", widget_type := .TEXT_INPUT,
    widget_name := "name_input", label := "Name" }

/-- An ADD mode containing two widgets with the same identifier. -/
def dupWidgetMode : ModeTestPlan :=
  { mode := .ADD, widgets := [dupWidgetA, dupWidgetB] }

/-- An aggregate whose single mode has a duplicated widget identifier. -/
def dupWidgetModel : MindMapModel :=
  { plan_id := "PLAN-002", screen_id := "SC-012", screen_name := "User Add",
    screen_type := .CRUD_MASTER, modes := [dupWidgetMode] }

/-! ## Helper lemmas -/

theorem omapM_map_encode {α β : Type} (f : β → Option α) (e : α → β)
    (h : ∀ x, f (e x) = some x) : ∀ l : List α, omapM f (l.map e) = some l := by
  intro l
  induction l with
  | nil => rfl
  | cons x xs ih => simp [omapM, h x, ih]

theorem alookup_mem {α : Type} :
    ∀ (l : List (String × α)) (k : String) (v : α),
      alookup l k = some v → (k, v) ∈ l := by
  intro l
  induction l with
  | nil => intro k v h; simp [alookup] at h
  | cons p rest ih =>
    obtain ⟨k0, v0⟩ := p
    intro k v h
    by_cases hk : k = k0
    · subst hk
      rw [alookup, if_pos rfl] at h
      cases h
      exact List.mem_cons_self _ _
    · rw [alookup, if_neg hk] at h
      exact List.mem_cons_of_mem _ (ih k v h)

theorem contains_mem {l : List String} {x : String} :
    l.contains x = true ↔ x ∈ l := by
  simp [List.contains, List.elem_iff]

theorem screenType_fromValue_value (x : ScreenType) :
    ScreenType.fromValue x.value = some x := by cases x <;> rfl

theorem screenMode_fromValue_value (x : ScreenMode) :
    ScreenMode.fromValue x.value = some x := by cases x <;> rfl

theorem widgetType_fromValue_value (x : WidgetType) :
    WidgetType.fromValue x.value = some x := by cases x <;> rfl

theorem buttonType_fromValue_value (x : ButtonType) :
    ButtonType.fromValue x.value = some x := by cases x <;> rfl

theorem viewpointCategory_fromValue_value (x : ViewpointCategory) :
    ViewpointCategory.fromValue x.value = some x := by cases x <;> rfl

theorem widgetState_fromValue_value (x : WidgetState) :
    WidgetState.fromValue x.value = some x := by cases x <;> rfl

theorem dupMsgs_nil_of_nodup (msg : String) :
    ∀ (xs seen : List String), xs.Nodup → (∀ x ∈ xs, x ∉ seen) →
      dupMsgs msg seen xs = [] := by
  intro xs
  induction xs with
  | nil => intro seen _ _; rfl
  | cons x rest ih =>
    intro seen hnd hdisj
    have hx : seen.contains x = false := by
      rw [Bool.eq_false_iff]
      intro hc
      exact hdisj x (List.mem_cons_self x rest) (contains_mem.mp hc)
    have hrest : rest.Nodup := (List.nodup_cons.mp hnd).2
    have hdisj2 : ∀ y ∈ rest, y ∉ (x :: seen) := by
      intro y hy
      simp only [List.mem_cons, not_or]
      refine ⟨fun hyx => ?_, hdisj y (List.mem_cons_of_mem _ hy)⟩
      exact (List.nodup_cons.mp hnd).1 (hyx ▸ hy)
    rw [dupMsgs, hx, ih (x :: seen) hrest hdisj2]
    rfl

theorem dupMsgs_mem_of_seen (msg : String) :
    ∀ (xs seen : List String) (x : String), x ∈ seen → x ∈ xs →
      (msg ++ x) ∈ dupMsgs msg seen xs := by
  intro xs
  induction xs with
  | nil => intro seen x _ hx; simp at hx
  | cons y rest ih =>
    intro seen x hseen hx
    rcases List.mem_cons.mp hx with hxy | hxr
    · subst hxy
      have hc : seen.contains x = true := contains_mem.mpr hseen
      rw [dupMsgs, hc]
      exact List.mem_append_left _ (List.mem_singleton.mpr rfl)
    · have hrec : (msg ++ x) ∈ dupMsgs msg (y :: seen) rest :=
        ih (y :: seen) x (List.mem_cons_of_mem _ hseen) hxr
      rw [dupMsgs]
      exact List.mem_append_right _ hrec

theorem dupMsgs_mem_of_not_nodup (msg : String) :
    ∀ (xs seen : List String), ¬ xs.Nodup →
      ∃ x, x ∈ xs ∧ (msg ++ x) ∈ dupMsgs msg seen xs := by
  intro xs
  induction xs with
  | nil => intro seen h; exact absurd List.nodup_nil h
  | cons y rest ih =>
    intro seen h
    by_cases hy : y ∈ rest
    · refine ⟨y, List.mem_cons_self y rest, ?_⟩
      have hrec : (msg ++ y) ∈ dupMsgs msg (y :: seen) rest :=
        dupMsgs_mem_of_seen msg rest (y :: seen) y (List.mem_cons_self y seen) hy
      rw [dupMsgs]
      exact List.mem_append_right _ hrec
    · have hrest : ¬ rest.Nodup := by
        intro hc
        exact h (List.nodup_cons.mpr ⟨hy, hc⟩)
      obtain ⟨x, hxr, hx⟩ := ih (y :: seen) hrest
      refine ⟨x, List.mem_cons_of_mem _ hxr, ?_⟩
      rw [dupMsgs]
      exact List.mem_append_right _ hx

theorem modeLoop_mem (e : String) (mode : ModeTestPlan) :
    ∀ (modes : List ModeTestPlan) (seen : List String),
      mode ∈ modes → e ∈ MindMapModel.validate_mode mode →
      e ∈ MindMapModel.modeLoop seen modes := by
  intro modes
  induction modes with
  | nil => intro seen h _; simp at h
  | cons m rest ih =>
    intro seen hmem he
    rw [MindMapModel.modeLoop]
    rcases List.mem_cons.mp hmem with hm | hr
    · subst hm
      exact List.mem_append_left _ (List.mem_append_right _ he)
    · exact List.mem_append_right _ (ih (m.mode.value :: seen) hr he)

theorem modeLoop_nil (modes : List ModeTestPlan) :
    ∀ (seen : List String),
      (modes.map (fun m => m.mode.value)).Nodup →
      (∀ m ∈ modes, m.mode.value ∉ seen) →
      (∀ m ∈ modes, MindMapModel.validate_mode m = []) →
      MindMapModel.modeLoop seen modes = [] := by
  induction modes with
  | nil => intro seen _ _ _; rfl
  | cons m rest ih =>
    intro seen hnd hdisj hvm
    rw [List.map_cons, List.nodup_cons] at hnd
    have hm : seen.contains m.mode.value = false := by
      rw [Bool.eq_false_iff]
      intro hc
      exact hdisj m (List.mem_cons_self m rest) (contains_mem.mp hc)
    have hdisj2 : ∀ x ∈ rest, x.mode.value ∉ (m.mode.value :: seen) := by
      intro x hx
      simp only [List.mem_cons, not_or]
      constructor
      · intro hxm
        exact hnd.1 (hxm ▸ List.mem_map_of_mem (fun y => y.mode.value) hx)
      · exact hdisj x (List.mem_cons_of_mem _ hx)
    have hvm2 : ∀ x ∈ rest, MindMapModel.validate_mode x = [] := by
      intro x hx; exact hvm x (List.mem_cons_of_mem _ hx)
    rw [MindMapModel.modeLoop, hm, hvm m (List.mem_cons_self m rest),
        ih (m.mode.value :: seen) hnd.2 hdisj2 hvm2]
    rfl

theorem validate_mode_nil (mode : ModeTestPlan)
    (hw : (mode.widgets.map (fun w => w.widget_id)).Nodup)
    (hb : (mode.buttons.map (fun b => b.button_id)).Nodup) :
    MindMapModel.validate_mode mode = [] := by
  show dupMsgs _ [] (mode.widgets.map (fun w => w.widget_id))
      ++ dupMsgs _ [] (mode.buttons.map (fun b => b.button_id)) = []
  rw [dupMsgs_nil_of_nodup _ _ _ hw (by intro x _ hx; simp at hx),
      dupMsgs_nil_of_nodup _ _ _ hb (by intro x _ hx; simp at hx)]
  rfl

theorem read_append_lt :
    ∀ (σ : DictStore) (t : List (String × Int)) (i : Nat), i < σ.length →
      DictStore.read (σ ++ [t]) i = σ.read i := by
  intro σ
  induction σ with
  | nil => intro t i h; simp at h
  | cons x rest ih =>
    intro t i h
    cases i with
    | zero => rfl
    | succ j =>
      have : j < rest.length := Nat.lt_of_succ_lt_succ h
      simpa [DictStore.read, List.getD] using ih t j this

theorem read_set_ne :
    ∀ (σ : DictStore) (a : Nat) (d : List (String × Int)) (i : Nat), i ≠ a →
      DictStore.read (List.set σ a d) i = σ.read i := by
  intro σ
  induction σ with
  | nil => intro a d i _; simp [DictStore.read, List.set]
  | cons x rest ih =>
    intro a d i hne
    cases a with
    | zero =>
      cases i with
      | zero => exact absurd rfl hne
      | succ j => rfl
    | succ b =>
      cases i with
      | zero => rfl
      | succ j =>
        have : j ≠ b := fun h => hne (by rw [h])
        simpa [DictStore.read, List.getD, List.set] using ih b d j this

theorem read_append_self :
    ∀ (σ : DictStore) (t : List (String × Int)),
      DictStore.read (σ ++ [t]) σ.length = t := by
  intro σ
  induction σ with
  | nil => intro t; rfl
  | cons x rest ih => intro t; simp [DictStore.read, List.getD]

theorem applicable_modes_valid :
    ∀ p ∈ WIDGET_APPLICABLE_MODES, (omapM ScreenMode.fromValue p.2).isSome = true := by
  decide

theorem validate_mode_def (mode : ModeTestPlan) :
    MindMapModel.validate_mode mode =
      dupMsgs ("Mode " ++ mode.mode.value ++ ": " ++ "Duplicate widget_id: ") []
        (mode.widgets.map (fun w => w.widget_id))
      ++ dupMsgs ("Mode " ++ mode.mode.value ++ ": " ++ "Duplicate button_id: ") []
        (mode.buttons.map (fun b => b.button_id)) := rfl

theorem validate_mem_of_modeLoop (m : MindMapModel) (e : String)
    (h : e ∈ MindMapModel.modeLoop [] m.modes) : e ∈ m.validate :=
  List.mem_append_right _ h

theorem decScreenModeElem (m : ScreenMode) :
    (decStrElem (Json.str m.value)).bind ScreenMode.fromValue = some m := by
  cases m <;> rfl

theorem decWidgetStateEntry (kv : String × WidgetState) :
    ((decStrElem (Json.str kv.2.value)).bind WidgetState.fromValue).map
      (fun v => (kv.1, v)) = some kv := by
  obtain ⟨k, v⟩ := kv
  cases v <;> rfl

theorem decStrElem_str (s : String) : decStrElem (Json.str s) = some s := rfl

theorem testItem_fromJson_toJson (t : TestItem) :
    TestItem.fromJson t.toJson = some t := rfl

theorem viewpointPlan_fromJson_toJson (vp : ViewpointPlan) :
    ViewpointPlan.fromJson vp.toJson = some vp := by
  have hitems := omapM_map_encode TestItem.fromJson TestItem.toJson
    testItem_fromJson_toJson vp.test_items
  have hmodes := omapM_map_encode (fun j => (decStrElem j).bind ScreenMode.fromValue)
    (fun m : ScreenMode => Json.str m.value) decScreenModeElem vp.applicable_modes
  simp [ViewpointPlan.toJson, ViewpointPlan.fromJson, alookup, decStr, decStrD,
        decListD, viewpointCategory_fromValue_value, hitems, hmodes]

theorem widgetConstraints_fromJson_toJson (c : WidgetConstraints) :
    WidgetConstraints.fromJson c.toJson = some c := by
  have hvals := omapM_map_encode decStrElem (fun s => Json.str s)
    decStrElem_str c.allowed_values
  cases c with
  | mk max_length min_length required pattern min_value max_value
      allowed_values default_value placeholder =>
    cases max_length <;> cases min_length <;> cases pattern <;>
      cases min_value <;> cases max_value <;> cases default_value <;>
      cases placeholder <;>
    simp [WidgetConstraints.toJson, WidgetConstraints.fromJson, alookup,
          encOptStr, encOptInt, encOptRat, decOptStr, decOptInt, decOptRat,
          decBoolD, decListD, hvals]

theorem widgetTestPlan_fromJson_toJson (w : WidgetTestPlan) :
    WidgetTestPlan.fromJson w.toJson = some w := by
  have hvps := omapM_map_encode ViewpointPlan.fromJson ViewpointPlan.toJson
    viewpointPlan_fromJson_toJson w.viewpoints
  have htrig := omapM_map_encode decStrElem (fun s => Json.str s)
    decStrElem_str w.trigger_buttons
  have hstates := omapM_map_encode
    (fun kv : String × Json => (decStrElem kv.2).bind
      (fun a => Option.map (fun v => (kv.1, v)) (WidgetState.fromValue a)))
    (fun kv : String × WidgetState => (kv.1, Json.str kv.2.value))
    (fun kv => by obtain ⟨k, v⟩ := kv; cases v <;> rfl) w.mode_states
  simp [WidgetTestPlan.toJson, WidgetTestPlan.fromJson, alookup, decStr,
        decListD, decDictD, widgetType_fromValue_value,
        widgetConstraints_fromJson_toJson, hvps, htrig, hstates]

theorem buttonTestPlan_fromJson_toJson (b : ButtonTestPlan) :
    ButtonTestPlan.fromJson b.toJson = some b := by
  have hvps := omapM_map_encode ViewpointPlan.fromJson ViewpointPlan.toJson
    viewpointPlan_fromJson_toJson b.viewpoints
  simp [ButtonTestPlan.toJson, ButtonTestPlan.fromJson, alookup, decStr,
        decListD, buttonType_fromValue_value, hvps]

theorem dtReference_fromJson_toJson (dt : DTReference) :
    DTReference.fromJson dt.toJson = some dt := by
  have hroles := omapM_map_encode decStrElem (fun s => Json.str s)
    decStrElem_str dt.roles
  simp [DTReference.toJson, DTReference.fromJson, alookup, decStr, decInt,
        decIntD, decListD, hroles]

theorem fixedTests_fromJson_toJson (f : FixedTests) :
    FixedTests.fromJson f.toJson = some f := rfl

theorem modeTestPlan_fromJson_toJson (m : ModeTestPlan) :
    ModeTestPlan.fromJson m.toJson = some m := by
  have hw := omapM_map_encode WidgetTestPlan.fromJson WidgetTestPlan.toJson
    widgetTestPlan_fromJson_toJson m.widgets
  have hb := omapM_map_encode ButtonTestPlan.fromJson ButtonTestPlan.toJson
    buttonTestPlan_fromJson_toJson m.buttons
  have hdt := omapM_map_encode DTReference.fromJson DTReference.toJson
    dtReference_fromJson_toJson m.decision_tables
  have htrig := omapM_map_encode decStrElem (fun s => Json.str s)
    decStrElem_str m.validation_triggers
  simp [ModeTestPlan.toJson, ModeTestPlan.fromJson, alookup, decStr, decStrD,
        decListD, screenMode_fromValue_value, fixedTests_fromJson_toJson,
        hw, hb, hdt, htrig]

theorem mindMapModel_fromJson_toJson (m : MindMapModel) :
    MindMapModel.fromJson m.toJson = some m := by
  obtain ⟨version, plan_id, created_at, generation_method, source_document,
    source_document_version, screen_id, screen_name, screen_name_en,
    screen_type, modes, validation_status, validation_errors,
    validation_warnings⟩ := m
  have hmodes := omapM_map_encode ModeTestPlan.fromJson ModeTestPlan.toJson
    modeTestPlan_fromJson_toJson modes
  have herr := omapM_map_encode decStrElem (fun s => Json.str s)
    decStrElem_str validation_errors
  have hwarn := omapM_map_encode decStrElem (fun s => Json.str s)
    decStrElem_str validation_warnings
  cases created_at <;> cases source_document <;>
    cases source_document_version <;> cases screen_name_en <;>
    cases validation_status <;>
  simp [MindMapModel.toJson, MindMapModel.fromJson, alookup, decStr, decStrD,
        decListD, decOptStr, encOptStr, screenType_fromValue_value,
        hmodes, herr, hwarn]

/-! ## Claim theorems -/

/-- C1: for every widget kind, mode, and declared trigger list,
`calculate_trigger_tests` returns the widget's base test count times the
number of entries of the mode's validation-trigger list that also occur
in the declared trigger list (hence 0 when that number is 0); EMAIL
(base 20) in ADD mode with declared triggers Search and Save gives 40,
and in VIEW mode (empty trigger list) gives 0. -/
theorem C1_trigger_duplication :
    (∀ (widget_type : String) (trigger_buttons : List String) (mode : String),
      calculate_trigger_tests widget_type trigger_buttons mode
        = get_widget_test_count widget_type *
          (((((alookup MODE_VALIDATION_TRIGGERS mode).getD []).filter
              (fun t => trigger_buttons.contains t)).length : Int)))
    ∧ calculate_trigger_tests WidgetType.EMAIL.value ["Search", "Save"]
        ScreenMode.ADD.value = 40
    ∧ calculate_trigger_tests WidgetType.EMAIL.value ["Search", "Save"]
        ScreenMode.VIEW.value = 0 := by
  refine ⟨?_, by decide, by decide⟩
  intro widget_type trigger_buttons mode
  have key : ∀ (base : Int) (l : List String),
      (if l.isEmpty then 0 else base * (l.length : Int)) = base * (l.length : Int) := by
    intro base l
    cases l with
    | nil => simp
    | cons x xs => rfl
  exact key (get_widget_test_count widget_type)
    (((alookup MODE_VALIDATION_TRIGGERS mode).getD []).filter
      (fun t => trigger_buttons.contains t))

/-- C2 counterexample: constructing a Decision Table Reference with
`combinations = -1 < 0` and `row_multiplier = 0 < 1`, and a Fixed Tests
bundle with a negative category count, does not fail: the source
classes declare no validators, so construction succeeds. -/
theorem C2_counterexample :
    DTReference.construct "DT-1" "Roles" "System_Admin" (-1) 0 []
      = .ok { dt_id := "DT-1", name := "Roles", role_context := "System_Admin",
              combinations := -1, row_multiplier := 0, roles := [] }
    ∧ FixedTests.construct (-1) 0 0 0 0 0 0 0 0 0 0
      = .ok { role_access_tests := -1 } :=
  ⟨rfl, rfl⟩

/-- C2 amended: construction of `DTReference` and `FixedTests` never
validates numeric invariants — it succeeds for every integer field
value, negative or not; no `InvalidPlanValueError` is raised (no such
class exists in the source). -/
theorem C2_construction_never_validates :
    ∀ (dt_id name role_context : String) (combinations row_multiplier : Int)
      (roles : List String) (a b c d e f g h i j k : Int),
      DTReference.construct dt_id name role_context combinations row_multiplier roles
        = .ok { dt_id := dt_id, name := name, role_context := role_context,
                combinations := combinations, row_multiplier := row_multiplier,
                roles := roles }
      ∧ FixedTests.construct a b c d e f g h i j k
        = .ok { role_access_tests := a, search_tests := b, pagination_tests := c,
                sort_tests := d, reset_tests := e, export_tests := f,
                screen_transition_tests := g, concurrent_tests := h,
                db_error_tests := i, double_click_tests := j, gui_tests := k } :=
  fun _ _ _ _ _ _ _ _ _ _ _ _ _ _ _ _ _ => ⟨rfl, rfl⟩

/-- C3: for every Mode Test Plan, `total_tests` is the sum of
`widget_tests`, `button_tests`, `dt_tests` and `fixed_tests.total`, each
of those being the sum of its items' own totals (a widget's or button's
total being the sum of its viewpoints' `test_count`, itself the length
of the test-item list); an aggregate's `total_expected_tests` is the
sum of its modes' `total_tests`; and the LIST-only scenario (fixed
tests 63, nothing else) has mode total 63, equal to the aggregate
total. -/
theorem C3_total_additivity :
    (∀ mtp : ModeTestPlan,
      mtp.total_tests
        = mtp.widget_tests + mtp.button_tests + mtp.dt_tests + mtp.fixed_tests.total
      ∧ mtp.widget_tests = (mtp.widgets.map (fun w => w.total_tests)).sum
      ∧ mtp.button_tests = (mtp.buttons.map (fun b => b.total_tests)).sum
      ∧ mtp.dt_tests = (mtp.decision_tables.map (fun dt => dt.total_tests)).sum)
    ∧ (∀ w : WidgetTestPlan,
        w.total_tests = (w.viewpoints.map (fun vp => vp.test_count)).sum)
    ∧ (∀ b : ButtonTestPlan,
        b.total_tests = (b.viewpoints.map (fun vp => vp.test_count)).sum)
    ∧ (∀ vp : ViewpointPlan, vp.test_count = (vp.test_items.length : Int))
    ∧ (∀ m : MindMapModel,
        m.total_expected_tests = (m.modes.map (fun mode => mode.total_tests)).sum)
    ∧ listOnlyMode.total_tests = 63
    ∧ listOnlyPlan.total_expected_tests = 63
    ∧ listOnlyPlan.total_expected_tests = listOnlyMode.total_tests :=
  ⟨fun _ => ⟨rfl, rfl, rfl, rfl⟩, fun _ => rfl, fun _ => rfl, fun _ => rfl,
   fun _ => rfl, by decide, by decide, by decide⟩

/-- C4 counterexample: an aggregate with one mode, no duplicate mode
values and all widget and button identifiers unique, but an empty
`plan_id`, on which `validate()` returns a non-empty list — the claim's
"returns the empty list" clause omits the required-field checks. -/
theorem C4_counterexample :
    emptyPlanIdModel.modes ≠ []
    ∧ (emptyPlanIdModel.modes.map (fun mode => mode.mode.value)).Nodup
    ∧ ((emptyPlanIdModel.modes.map
        (fun mode => mode.widgets.map (fun w => w.widget_id))).flatten).Nodup
    ∧ ((emptyPlanIdModel.modes.map
        (fun mode => mode.buttons.map (fun b => b.button_id))).flatten).Nodup
    ∧ emptyPlanIdModel.validate = ["plan_id is required"] := by
  refine ⟨by decide, by decide, by decide, by decide, by decide⟩

/-- C4 amended: whenever two widgets (or two buttons) within one mode
share an identifier, `validate()` is non-empty and contains a message
naming the mode and one of its widget (or button) identifiers; and a
plan whose widget and button identifiers are unique within every mode,
with at least one mode, no duplicate mode values, **and non-empty
`plan_id`, `screen_id` and `screen_name`**, validates to the empty
list. -/
theorem C4_validate_uniqueness :
    ∀ m : MindMapModel,
      ((∃ mode ∈ m.modes, ¬ (mode.widgets.map (fun w => w.widget_id)).Nodup) →
        m.validate ≠ [] ∧ ∃ mode ∈ m.modes,
          ∃ wid ∈ mode.widgets.map (fun w => w.widget_id),
            ("Mode " ++ mode.mode.value ++ ": " ++ "Duplicate widget_id: " ++ wid)
              ∈ m.validate)
      ∧ ((∃ mode ∈ m.modes, ¬ (mode.buttons.map (fun b => b.button_id)).Nodup) →
        m.validate ≠ [] ∧ ∃ mode ∈ m.modes,
          ∃ bid ∈ mode.buttons.map (fun b => b.button_id),
            ("Mode " ++ mode.mode.value ++ ": " ++ "Duplicate button_id: " ++ bid)
              ∈ m.validate)
      ∧ (m.plan_id ≠ "" → m.screen_id ≠ "" → m.screen_name ≠ "" →
         m.modes ≠ [] →
         (m.modes.map (fun mode => mode.mode.value)).Nodup →
         (∀ mode ∈ m.modes,
            (mode.widgets.map (fun w => w.widget_id)).Nodup
            ∧ (mode.buttons.map (fun b => b.button_id)).Nodup) →
         m.validate = []) := by
  intro m
  refine ⟨?_, ?_, ?_⟩
  · rintro ⟨mode, hmem, hdup⟩
    obtain ⟨wid, hwid, hin⟩ := dupMsgs_mem_of_not_nodup
      ("Mode " ++ mode.mode.value ++ ": " ++ "Duplicate widget_id: ")
      (mode.widgets.map (fun w => w.widget_id)) [] hdup
    have hvm : ("Mode " ++ mode.mode.value ++ ": " ++ "Duplicate widget_id: " ++ wid)
        ∈ MindMapModel.validate_mode mode := by
      rw [validate_mode_def]
      exact List.mem_append_left _ hin
    have hv := validate_mem_of_modeLoop m _
      (modeLoop_mem _ mode m.modes [] hmem hvm)
    exact ⟨List.ne_nil_of_mem hv, mode, hmem, wid, hwid, hv⟩
  · rintro ⟨mode, hmem, hdup⟩
    obtain ⟨bid, hbid, hin⟩ := dupMsgs_mem_of_not_nodup
      ("Mode " ++ mode.mode.value ++ ": " ++ "Duplicate button_id: ")
      (mode.buttons.map (fun b => b.button_id)) [] hdup
    have hvm : ("Mode " ++ mode.mode.value ++ ": " ++ "Duplicate button_id: " ++ bid)
        ∈ MindMapModel.validate_mode mode := by
      rw [validate_mode_def]
      exact List.mem_append_right _ hin
    have hv := validate_mem_of_modeLoop m _
      (modeLoop_mem _ mode m.modes [] hmem hvm)
    exact ⟨List.ne_nil_of_mem hv, mode, hmem, bid, hbid, hv⟩
  · intro h1 h2 h3 h4 hnd hall
    have h5 : m.modes.isEmpty = false := by
      cases hm : m.modes with
      | nil => exact absurd hm h4
      | cons a l => rfl
    have hloop : MindMapModel.modeLoop [] m.modes = [] :=
      modeLoop_nil m.modes [] hnd (by intro x _ hx; simp at hx)
        (fun mode hm => validate_mode_nil mode (hall mode hm).1 (hall mode hm).2)
    simp [MindMapModel.validate, h1, h2, h3, h5, hloop]

/-- C4 witness: the amended theorem applied at concrete aggregates — one
with a duplicated widget id (validate non-empty), one fully unique and
well-formed (validate empty). -/
theorem C4_validate_uniqueness_witness :
    dupWidgetModel.validate ≠ [] ∧ listOnlyPlan.validate = [] :=
  ⟨((C4_validate_uniqueness dupWidgetModel).1 ⟨dupWidgetMode, by decide, by decide⟩).1,
   (C4_validate_uniqueness listOnlyPlan).2.2 (by decide) (by decide) (by decide)
     (by decide) (by decide) (by decide)⟩

/-- C5: a Decision Table Reference's `total_tests` is
`combinations × row_multiplier`, even whenever the multiplier is the
default 2; `get_dt_test_count` is the catalogued combination count times
the fixed multiplier 2; and 6 combinations × 2 give 12. -/
theorem C5_dt_law :
    (∀ dt : DTReference, dt.total_tests = dt.combinations * dt.row_multiplier)
    ∧ (∀ dt : DTReference, dt.row_multiplier = 2 → Even dt.total_tests)
    ∧ (∀ (mode role_context : String),
        get_dt_test_count mode role_context
          = ((alookup ((alookup DT_COMBINATIONS mode).getD []) role_context).getD 0) * 2)
    ∧ exampleDT.total_tests = 12 := by
  refine ⟨fun dt => rfl, fun dt h => ?_, fun mode role_context => rfl, rfl⟩
  rw [DTReference.total_tests, h]
  exact ⟨dt.combinations, by ring⟩

/-- C5 witness: the law applied at the scenario's decision table
(6 combinations, default multiplier 2, total 12, even). -/
theorem C5_dt_law_witness :
    exampleDT.row_multiplier = 2 ∧ Even exampleDT.total_tests :=
  ⟨rfl, C5_dt_law.2.1 exampleDT rfl⟩

/-- C6: the catalog lookups are total and degrade to documented
defaults on unknown keys: unknown widget kind gives count 0 and no
applicable modes (`get_applicable_modes` never raises for any key),
unknown mode gives an empty fixed-test mapping, and an unknown mode or
role context gives DT count 0. -/
theorem C6_unknown_key_defaults :
    ∀ (key mode role_context : String),
      (alookup WIDGET_TEST_COUNTS key = none → get_widget_test_count key = 0)
      ∧ (alookup WIDGET_APPLICABLE_MODES key = none →
          get_applicable_modes key = some [])
      ∧ (get_applicable_modes key).isSome = true
      ∧ ((mode ≠ "LIST" ∧ mode ≠ "ADD" ∧ mode ≠ "EDIT" ∧ mode ≠ "VIEW") →
          get_mode_fixed_tests mode = [])
      ∧ ((alookup DT_COMBINATIONS mode = none ∨
          alookup ((alookup DT_COMBINATIONS mode).getD []) role_context = none) →
          get_dt_test_count mode role_context = 0) := by
  intro key mode role_context
  refine ⟨?_, ?_, ?_, ?_, ?_⟩
  · intro h
    rw [get_widget_test_count, h]
    rfl
  · intro h
    rw [get_applicable_modes, h]
    rfl
  · rw [get_applicable_modes]
    cases h : alookup WIDGET_APPLICABLE_MODES key with
    | none => rfl
    | some l =>
      exact applicable_modes_valid (key, l) (alookup_mem _ _ _ h)
  · rintro ⟨h1, h2, h3, h4⟩
    simp [get_mode_fixed_tests, ScreenMode.value, h1, h2, h3, h4]
  · rintro (h | h)
    · show ((alookup ((alookup DT_COMBINATIONS mode).getD []) role_context).getD 0)
          * DT_ROW_MULTIPLIER = 0
      rw [h]
      rfl
    · show ((alookup ((alookup DT_COMBINATIONS mode).getD []) role_context).getD 0)
          * DT_ROW_MULTIPLIER = 0
      rw [h]
      rfl

/-- C6 witness: the defaults observed at concrete unknown keys. -/
theorem C6_unknown_key_defaults_witness :
    get_widget_test_count "BOGUS" = 0
    ∧ get_applicable_modes "BOGUS" = some []
    ∧ get_mode_fixed_tests "BOGUS" = []
    ∧ get_dt_test_count "LIST" "System_Admin" = 0
    ∧ get_dt_test_count "ADD" "BOGUS" = 0 :=
  ⟨(C6_unknown_key_defaults "BOGUS" "x" "x").1 (by decide),
   (C6_unknown_key_defaults "BOGUS" "x" "x").2.1 (by decide),
   (C6_unknown_key_defaults "x" "BOGUS" "x").2.2.2.1
     ⟨by decide, by decide, by decide, by decide⟩,
   (C6_unknown_key_defaults "x" "LIST" "System_Admin").2.2.2.2 (Or.inl (by decide)),
   (C6_unknown_key_defaults "x" "ADD" "BOGUS").2.2.2.2 (Or.inr (by decide))⟩

/-- C7: running `validate` leaves the aggregate unchanged — in
particular `validation_status`, `validation_errors` and
`validation_warnings` are exactly as before — and `is_valid` is true
exactly when `validate` returns the empty list. -/
theorem C7_validate_frame :
    ∀ m : MindMapModel,
      m.validateRun.2 = m
      ∧ m.validateRun.2.validation_status = m.validation_status
      ∧ m.validateRun.2.validation_errors = m.validation_errors
      ∧ m.validateRun.2.validation_warnings = m.validation_warnings
      ∧ (m.is_valid = true ↔ m.validate = []) := by
  intro m
  refine ⟨rfl, rfl, rfl, rfl, ?_⟩
  simp [MindMapModel.is_valid, List.length_eq_zero]

/-- C7 witness: the frame and equivalence at a concrete valid plan. -/
theorem C7_validate_frame_witness :
    listOnlyPlan.validateRun.2 = listOnlyPlan ∧ listOnlyPlan.is_valid = true :=
  ⟨(C7_validate_frame listOnlyPlan).1,
   ((C7_validate_frame listOnlyPlan).2.2.2.2).mpr (by decide)⟩

/-- C8: serializing an aggregate, deserializing it, and serializing
again yields the first serialization: deserialization recovers the
aggregate exactly, so the re-serialized tree (and hence its
deterministic rendering, field order and numeric values included) is
identical. -/
theorem C8_serialization_round_trip :
    ∀ m : MindMapModel,
      MindMapModel.fromJson m.toJson = some m
      ∧ (MindMapModel.fromJson m.toJson).map MindMapModel.toJson = some m.toJson := by
  intro m
  refine ⟨mindMapModel_fromJson_toJson m, ?_⟩
  rw [mindMapModel_fromJson_toJson m]
  rfl

/-- C9: `get_mode_fixed_tests` returns a fresh copy: the returned dict's
contents equal the catalogued table for the mode (for every store, so
repeated lookups always return equal mappings), and mutating the
returned dict leaves every pre-existing cell — in particular the four
module-level catalog tables of the initial store — unchanged. -/
theorem C9_mode_fixed_tests_copy :
    ∀ (σ : DictStore) (mode k : String) (v : Int),
      (get_mode_fixed_tests_st mode σ).2.read (get_mode_fixed_tests_st mode σ).1
        = get_mode_fixed_tests mode
      ∧ (∀ i, i < σ.length →
          ((get_mode_fixed_tests_st mode σ).2.write
              (get_mode_fixed_tests_st mode σ).1 k v).read i = σ.read i)
      ∧ initStore.read 0 = LIST_MODE_FIXED_TESTS
      ∧ initStore.read 1 = ADD_MODE_FIXED_TESTS
      ∧ initStore.read 2 = EDIT_MODE_FIXED_TESTS
      ∧ initStore.read 3 = VIEW_MODE_FIXED_TESTS := by
  intro σ mode k v
  refine ⟨read_append_self σ _, ?_, rfl, rfl, rfl, rfl⟩
  intro i hi
  show DictStore.read
      (DictStore.write (σ ++ [get_mode_fixed_tests mode]) σ.length k v) i = σ.read i
  rw [DictStore.write, read_set_ne _ _ _ _ (Nat.ne_of_lt hi),
      read_append_lt _ _ _ hi]

/-- C9 witness: mutating the dict returned for LIST mode leaves the
catalog cell of the LIST table unchanged. -/
theorem C9_mode_fixed_tests_copy_witness :
    ((get_mode_fixed_tests_st "LIST" initStore).2.write
        (get_mode_fixed_tests_st "LIST" initStore).1 "gui_tests" 99).read 0
      = initStore.read 0 :=
  (C9_mode_fixed_tests_copy initStore "LIST" "gui_tests" 99).2.1 0 (by decide)

/-- C10: `get_all_widget_ids` has no duplicate entries, and an
identifier occurs in it exactly when some mode contains a widget with
that identifier (order is one realization of the unordered set). -/
theorem C10_all_widget_ids :
    ∀ m : MindMapModel,
      m.get_all_widget_ids.Nodup
      ∧ (∀ s : String, s ∈ m.get_all_widget_ids ↔
          ∃ mode ∈ m.modes, ∃ w ∈ mode.widgets, w.widget_id = s) := by
  intro m
  refine ⟨List.nodup_dedup _, ?_⟩
  intro s
  rw [MindMapModel.get_all_widget_ids, List.mem_dedup, List.mem_flatten]
  constructor
  · rintro ⟨l, hl, hs⟩
    rw [List.mem_map] at hl
    obtain ⟨mode, hmode, rfl⟩ := hl
    rw [List.mem_map] at hs
    obtain ⟨w, hw, rfl⟩ := hs
    exact ⟨mode, hmode, w, hw, rfl⟩
  · rintro ⟨mode, hmode, w, hw, rfl⟩
    exact ⟨mode.widgets.map (fun x => x.widget_id),
           List.mem_map_of_mem _ hmode, List.mem_map_of_mem _ hw⟩

/-- C10 witness: on the aggregate with the duplicated widget id WGT-1,
the id list is duplicate-free and contains WGT-1 (exactly once). -/
theorem C10_all_widget_ids_witness :
    dupWidgetModel.get_all_widget_ids.Nodup
    ∧ "WGT-1" ∈ dupWidgetModel.get_all_widget_ids :=
  ⟨(C10_all_widget_ids dupWidgetModel).1,
   ((C10_all_widget_ids dupWidgetModel).2 "WGT-1").mpr
     ⟨dupWidgetMode, by decide, dupWidgetA, by decide, rfl⟩⟩

end WorkflowClient
